import Mathlib

/-!
# Verification of the `egui-datepicker` widget logic

A shallow embedding of the calendar mathematics and interaction logic of the
`egui-datepicker` crate (`src/lib.rs`), together with theorems about it.

The widget manipulates `chrono` dates. We model a `chrono::Date` by its calendar
fields `(year, month, day)` (`CDate`) together with the standard proleptic
Gregorian day-number conversions (`toRataDie`, `civilFromDays`); `chrono` date
comparison and day arithmetic act on the day number, and field accessors
(`year()`, `month()`, `day()`) read the calendar fields.  The widget functions
(`get_days_from_month`, the calendar-grid construction of `show_calendar_grid`,
`show_day_button`, `date_step_button`, `show_year_control`, `show_month_control`,
and the popup logic of `Widget::ui`) are translated statement by statement.
-/

namespace EguiDatepicker

/-- Gregorian leap-year predicate: divisible by 4, except centuries unless
divisible by 400 (the rule implemented by `chrono`). -/
def isLeapYear (y : Int) : Bool := (y % 4 == 0 && y % 100 != 0) || y % 400 == 0

/-- Modelled from the spec: the standard Gregorian month-length table — 31 or 30
days, and for February 28 or 29 per the leap-year rule.  This is the comparison
target for `get_days_from_month`. -/
def gregorianMonthLength (y m : Int) : Int :=
  if m = 2 then (if isLeapYear y then 29 else 28)
  else if m = 4 ∨ m = 6 ∨ m = 9 ∨ m = 11 then 30
  else 31

/-- Number of days of year `y` that lie strictly before month `m` (`1 ≤ m ≤ 12`). -/
def daysBeforeMonth (y m : Int) : Int :=
  let l : Int := if isLeapYear y then 1 else 0
  if m = 1 then 0
  else if m = 2 then 31
  else if m = 3 then 59 + l
  else if m = 4 then 90 + l
  else if m = 5 then 120 + l
  else if m = 6 then 151 + l
  else if m = 7 then 181 + l
  else if m = 8 then 212 + l
  else if m = 9 then 243 + l
  else if m = 10 then 273 + l
  else if m = 11 then 304 + l
  else 334 + l

/-- A calendar date: year, month (1–12) and day (1–31).  The model of a
`chrono::Date<Tz>`; the timezone is invisible to the widget and is dropped. -/
structure CDate where
  y : Int
  m : Int
  d : Int
deriving DecidableEq, Repr

/-- The rata-die day number of a proleptic Gregorian date (day 1 = 0001-01-01,
a Monday): the linear day count that underlies `chrono` date arithmetic and
comparison. -/
def toRataDie (dt : CDate) : Int :=
  365 * (dt.y - 1) + (dt.y - 1) / 4 - (dt.y - 1) / 100 + (dt.y - 1) / 400
    + daysBeforeMonth dt.y dt.m + dt.d

/-- The calendar fields of a rata-die day number (Hinnant's `civil_from_days`
algorithm, shifted to the rata-die epoch): the model of reading `year()`,
`month()`, `day()` from a `chrono` date obtained by day arithmetic. -/
def civilFromDays (r : Int) : CDate :=
  let z := r + 305
  let era := z / 146097
  let doe := z - era * 146097
  let yoe := (doe - doe / 1460 + doe / 36524 - doe / 146096) / 365
  let doy := doe - (365 * yoe + yoe / 4 - yoe / 100)
  let mp := (5 * doy + 2) / 153
  let d := doy - (153 * mp + 2) / 5 + 1
  let m := mp + (if mp < 10 then 3 else -9)
  let y := yoe + era * 400
  ⟨if m ≤ 2 then y + 1 else y, m, d⟩

/-- Validity of the calendar fields of a `CDate`. -/
def CDate.isValid (dt : CDate) : Prop :=
  1 ≤ dt.m ∧ dt.m ≤ 12 ∧ 1 ≤ dt.d ∧ dt.d ≤ gregorianMonthLength dt.y dt.m

instance (dt : CDate) : Decidable dt.isValid := by
  unfold CDate.isValid; infer_instance

/-- Date order of `chrono`: dates are compared by their underlying day number. -/
def dateLt (a b : CDate) : Prop := toRataDie a < toRataDie b

instance (a b : CDate) : Decidable (dateLt a b) := by
  unfold dateLt; infer_instance

/-- The function `get_days_from_month` (src/lib.rs:364-378): day count of a month, computed
as the day-number difference between the first day of the next month (rolling
December over into January of `year + 1`) and the first day of this month. -/
def get_days_from_month (year month : Int) : Int :=
  toRataDie ⟨(if month = 12 then year + 1 else year),
             (if month = 12 then 1 else month + 1), 1⟩
    - toRataDie ⟨year, month, 1⟩

/-- The function `get_days_from_month` agrees with the Gregorian month-length table on every
year and every month in 1..12. -/
lemma get_days_from_month_eq (y m : Int) (h1 : 1 ≤ m) (h2 : m ≤ 12) :
    get_days_from_month y m = gregorianMonthLength y m := by
  unfold get_days_from_month toRataDie daysBeforeMonth gregorianMonthLength
  interval_cases m <;> simp only [isLeapYear] <;>
    by_cases h4 : y % 4 = 0 <;> by_cases h100 : y % 100 = 0 <;>
      by_cases h400 : y % 400 = 0 <;>
    simp [h4, h100, h400] <;> omega

/-- C1: for every year and month in 1..12, `get_days_from_month` returns the
Gregorian number of days in that month (31/30, and for February 28 or 29 per the
leap-year rule); in particular `get_days_from_month 2024 2 = 29`,
`get_days_from_month 2023 2 = 28`, and month 12 rolls over into year+1 month 1. -/
theorem daysInMonth_gregorian :
    (∀ y m : Int, 1 ≤ m → m ≤ 12 →
        get_days_from_month y m = gregorianMonthLength y m) ∧
      get_days_from_month 2024 2 = 29 ∧ get_days_from_month 2023 2 = 28 ∧
      (∀ y : Int, get_days_from_month y 12 =
        toRataDie ⟨y + 1, 1, 1⟩ - toRataDie ⟨y, 12, 1⟩) :=
  ⟨get_days_from_month_eq, by decide, by decide, fun y => rfl⟩

/-- Witness for C1: the general part of `daysInMonth_gregorian` instantiated at
year 2025, month 6, with its hypotheses discharged concretely. -/
theorem daysInMonth_gregorian_witness :
    (1 : Int) ≤ 6 ∧ (6 : Int) ≤ 12 ∧ get_days_from_month 2025 6 = 30 :=
  ⟨by decide, by decide, by
    have h := daysInMonth_gregorian.1 2025 6 (by decide) (by decide)
    simpa using h⟩

/-- Model of `Weekday::num_days_from_monday` of the date with rata-die number `r`
(day 1 = 0001-01-01 is a Monday). -/
def num_days_from_monday (r : Int) : Int := (r - 1) % 7

/-- Model of `Weekday::num_days_from_sunday` of the date with rata-die number `r`. -/
def num_days_from_sunday (r : Int) : Int := r % 7

/-- The function `get_start_offset_of_calendar` (src/lib.rs:164-170): days between the first
day of the month and the configured week start. -/
def get_start_offset_of_calendar (sunday_first : Bool) (first_day : Int) : Int :=
  if sunday_first then num_days_from_sunday first_day
  else num_days_from_monday first_day

/-- The function `get_end_offset_of_calendar` (src/lib.rs:174-180): trailing filler days after
the first day of the next month, `(7 - offset) % 7`. -/
def get_end_offset_of_calendar (sunday_first : Bool) (first_day : Int) : Int :=
  if sunday_first then (7 - num_days_from_sunday first_day) % 7
  else (7 - num_days_from_monday first_day) % 7

/-- The expression `self.date.with_day(1)` in `show_calendar_grid` (src/lib.rs:185): the first
day of the selected date's month, as a day number. -/
def first_day_of_current_month (sel : CDate) : Int := toRataDie ⟨sel.y, sel.m, 1⟩

/-- The local `start_offset` of `show_calendar_grid` (src/lib.rs:186). -/
def grid_start_offset (sel : CDate) (sf : Bool) : Int :=
  get_start_offset_of_calendar sf (first_day_of_current_month sel)

/-- The local `days_in_month` of `show_calendar_grid` (src/lib.rs:187). -/
def days_in_month (sel : CDate) : Int := get_days_from_month sel.y sel.m

/-- The local `first_day_of_next_month` of `show_calendar_grid`
(src/lib.rs:188-189): the first day plus `days_in_month` days. -/
def first_day_of_next_month (sel : CDate) : Int :=
  first_day_of_current_month sel + days_in_month sel

/-- The local `end_offset` of `show_calendar_grid` (src/lib.rs:190). -/
def grid_end_offset (sel : CDate) (sf : Bool) : Int :=
  get_end_offset_of_calendar sf (first_day_of_next_month sel)

/-- The local `start_date` of `show_calendar_grid` (src/lib.rs:191). -/
def grid_start_date (sel : CDate) (sf : Bool) : Int :=
  first_day_of_current_month sel - grid_start_offset sel sf

/-- The sequence of day numbers rendered by the loop of `show_calendar_grid`
(src/lib.rs:192-198): `start_date + Duration::days(i)` for
`i` in `0..(start_offset + days_in_month + end_offset)`. -/
def show_calendar_grid_dates (sel : CDate) (sf : Bool) : List Int :=
  (List.range (grid_start_offset sel sf + days_in_month sel
      + grid_end_offset sel sf).toNat).map
    (fun i : Nat => grid_start_date sel sf + (i : Int))

/-- Both week-start offsets lie in `[0, 6]`. -/
lemma start_offset_bounds (sf : Bool) (r : Int) :
    0 ≤ get_start_offset_of_calendar sf r ∧ get_start_offset_of_calendar sf r ≤ 6 := by
  unfold get_start_offset_of_calendar num_days_from_sunday num_days_from_monday
  cases sf <;> simp <;> omega

/-- The end offset lies in `[0, 6]`. -/
lemma end_offset_bounds (sf : Bool) (r : Int) :
    0 ≤ get_end_offset_of_calendar sf r ∧ get_end_offset_of_calendar sf r ≤ 6 := by
  unfold get_end_offset_of_calendar num_days_from_sunday num_days_from_monday
  cases sf <;> simp <;> omega

/-- Every Gregorian month has between 28 and 31 days. -/
lemma gregorianMonthLength_bounds (y m : Int) :
    28 ≤ gregorianMonthLength y m ∧ gregorianMonthLength y m ≤ 31 := by
  unfold gregorianMonthLength
  split_ifs <;> omega

/-- The day field enters the rata-die number additively. -/
lemma toRataDie_day (y m k : Int) :
    toRataDie ⟨y, m, k⟩ = toRataDie ⟨y, m, 1⟩ + (k - 1) := by
  unfold toRataDie; ring

/-- The total cell count of the grid is a multiple of 7. -/
lemma grid_total_mod7 (sf : Bool) (f dim : Int) :
    (get_start_offset_of_calendar sf f + dim
      + get_end_offset_of_calendar sf (f + dim)) % 7 = 0 := by
  unfold get_start_offset_of_calendar get_end_offset_of_calendar
    num_days_from_sunday num_days_from_monday
  cases sf <;> simp <;> omega

/-- Length of the grid sequence. -/
lemma grid_length (sel : CDate) (sf : Bool) :
    (show_calendar_grid_dates sel sf).length =
      (grid_start_offset sel sf + days_in_month sel + grid_end_offset sel sf).toNat := by
  rw [show_calendar_grid_dates]
  simp only [List.length_map, List.length_range]

/-- The `i`-th grid entry is the start date plus `i` days. -/
lemma grid_getElem (sel : CDate) (sf : Bool) (i : Nat)
    (hi : i < (show_calendar_grid_dates sel sf).length) :
    (show_calendar_grid_dates sel sf)[i]? = some (grid_start_date sel sf + i) := by
  rw [grid_length] at hi
  rw [show_calendar_grid_dates, List.getElem?_map, List.getElem?_range hi]
  rfl

/-- C2: for every valid selected date and either week-start convention, the grid
sequence of `show_calendar_grid` has `start_offset + days_in_month + end_offset`
entries, begins at `first_day_of_month - start_offset`, each entry is exactly one
day after the previous, the length is a multiple of 7, every day of the selected
month occurs in it, and no date occurs twice. -/
theorem calendar_grid_spec (sel : CDate) (sf : Bool) (hv : sel.isValid) :
    (show_calendar_grid_dates sel sf).length =
        (grid_start_offset sel sf + days_in_month sel + grid_end_offset sel sf).toNat ∧
      (show_calendar_grid_dates sel sf).head? =
        some (first_day_of_current_month sel - grid_start_offset sel sf) ∧
      (∀ i : Nat, i + 1 < (show_calendar_grid_dates sel sf).length →
        ∃ a, (show_calendar_grid_dates sel sf)[i]? = some a ∧
          (show_calendar_grid_dates sel sf)[i + 1]? = some (a + 1)) ∧
      (show_calendar_grid_dates sel sf).length % 7 = 0 ∧
      (∀ k : Int, 1 ≤ k → k ≤ days_in_month sel →
        toRataDie ⟨sel.y, sel.m, k⟩ ∈ show_calendar_grid_dates sel sf) ∧
      (show_calendar_grid_dates sel sf).Nodup := by
  obtain ⟨hm1, hm2, -, -⟩ := hv
  have hdim : days_in_month sel = gregorianMonthLength sel.y sel.m :=
    get_days_from_month_eq sel.y sel.m hm1 hm2
  have hdimb := gregorianMonthLength_bounds sel.y sel.m
  have hsob : 0 ≤ grid_start_offset sel sf ∧ grid_start_offset sel sf ≤ 6 :=
    start_offset_bounds sf (first_day_of_current_month sel)
  have heob : 0 ≤ grid_end_offset sel sf ∧ grid_end_offset sel sf ≤ 6 :=
    end_offset_bounds sf (first_day_of_next_month sel)
  have hmod : (grid_start_offset sel sf + days_in_month sel
      + grid_end_offset sel sf) % 7 = 0 :=
    grid_total_mod7 sf (first_day_of_current_month sel) (days_in_month sel)
  have hlen := grid_length sel sf
  refine ⟨hlen, ?_, ?_, ?_, ?_, ?_⟩
  · rw [List.head?_eq_getElem?, grid_getElem sel sf 0 (by rw [hlen]; omega)]
    simp [grid_start_date]
  · intro i hi
    refine ⟨grid_start_date sel sf + i, grid_getElem sel sf i (by omega), ?_⟩
    rw [grid_getElem sel sf (i + 1) hi]
    push_cast
    ring_nf
  · rw [hlen]; omega
  · intro k hk1 hk2
    rw [show_calendar_grid_dates]
    simp only [List.mem_map, List.mem_range]
    refine ⟨(grid_start_offset sel sf + k - 1).toNat, by omega, ?_⟩
    rw [toRataDie_day]
    have h1 : grid_start_date sel sf
        = first_day_of_current_month sel - grid_start_offset sel sf := rfl
    have h2 : first_day_of_current_month sel = toRataDie ⟨sel.y, sel.m, 1⟩ := rfl
    rw [h1, h2]
    omega
  · rw [show_calendar_grid_dates]
    refine List.Nodup.map ?_ (List.nodup_range _)
    intro a b hab
    simpa using hab

/-- Witness for C2: `calendar_grid_spec` applied to 2023-03-15 with Monday-first
weeks; validity holds, the grid length is a multiple of 7, and the grid contains
2023-03-01. -/
theorem calendar_grid_spec_witness :
    (CDate.mk 2023 3 15).isValid ∧
      (show_calendar_grid_dates ⟨2023, 3, 15⟩ false).length % 7 = 0 ∧
      toRataDie ⟨2023, 3, 1⟩ ∈ show_calendar_grid_dates ⟨2023, 3, 15⟩ false := by
  have h := calendar_grid_spec ⟨2023, 3, 15⟩ false (by decide)
  exact ⟨by decide, h.2.2.2.1, h.2.2.2.2.1 1 (by decide) (by decide)⟩

/-- The rendering outcome of one day cell of the grid. -/
structure DayCell where
  hasButton : Bool
  enabled : Bool
  selectedAfterClick : CDate
deriving DecidableEq, Repr

/-- The function `show_day_button` (src/lib.rs:202-221).  The outer
`add_enabled_ui(self.date != &date)` disables the cell when the date equals the
selection; a date of a different month returns before any button is drawn
(filler cell); a date before `min_date` or after `max_date` is disabled; a click
on the (enabled) button sets the selected date to the cell's date. -/
def show_day_button (min_date max_date : Option CDate) (sel date : CDate) : DayCell :=
  if sel.m ≠ date.m then
    { hasButton := false, enabled := false, selectedAfterClick := sel }
  else
    let below_min := match min_date with
      | some mn => decide (dateLt date mn)
      | none => false
    let above_max := match max_date with
      | some mx => decide (dateLt mx date)
      | none => false
    { hasButton := true,
      enabled := decide (sel ≠ date) && !(below_min || above_max),
      selectedAfterClick := date }

/-- C3: a grid date of a different month than the selection is a filler cell with
no click target; otherwise the cell is disabled exactly when the date is strictly
before `min_date`, strictly after `max_date`, or equal to the selected date (so a
day equal to a bound is enabled); clicking an enabled day selects that date. -/
theorem day_button_spec (min_date max_date : Option CDate) (sel date : CDate) :
    (sel.m ≠ date.m →
      (show_day_button min_date max_date sel date).hasButton = false) ∧
    (sel.m = date.m →
      ((show_day_button min_date max_date sel date).enabled = true ↔
        ¬(∃ mn, min_date = some mn ∧ dateLt date mn) ∧
        ¬(∃ mx, max_date = some mx ∧ dateLt mx date) ∧ date ≠ sel)) ∧
    ((show_day_button min_date max_date sel date).enabled = true →
      (show_day_button min_date max_date sel date).selectedAfterClick = date) := by
  refine ⟨?_, ?_, ?_⟩
  · intro h
    simp [show_day_button, h]
  · intro h
    rcases min_date with - | mn <;> rcases max_date with - | mx <;>
      simp [show_day_button, h, ne_comm] <;> tauto
  · intro h
    by_cases hm : sel.m = date.m
    · simp [show_day_button, hm]
    · simp [show_day_button, hm] at h

/-- Witness for C3: at the lower bound itself.  With
`min_date = max_date = 2023-03-01` and selection 2023-03-15, the cell for
2023-03-01 (equal to both bounds) is an enabled button, and clicking it selects
2023-03-01. -/
theorem day_button_spec_witness :
    ((CDate.mk 2023 3 15).m = (CDate.mk 2023 3 1).m) ∧
      (show_day_button (some ⟨2023, 3, 1⟩) (some ⟨2023, 3, 1⟩)
        ⟨2023, 3, 15⟩ ⟨2023, 3, 1⟩).enabled = true ∧
      (show_day_button (some ⟨2023, 3, 1⟩) (some ⟨2023, 3, 1⟩)
        ⟨2023, 3, 15⟩ ⟨2023, 3, 1⟩).selectedAfterClick = ⟨2023, 3, 1⟩ := by
  have h := day_button_spec (some ⟨2023, 3, 1⟩) (some ⟨2023, 3, 1⟩)
    ⟨2023, 3, 15⟩ ⟨2023, 3, 1⟩
  have he : (show_day_button (some ⟨2023, 3, 1⟩) (some ⟨2023, 3, 1⟩)
      ⟨2023, 3, 15⟩ ⟨2023, 3, 1⟩).enabled = true := by
    refine (h.2.1 (by decide)).2 ⟨?_, ?_, by decide⟩
    · rintro ⟨mn, hmn, hlt⟩
      cases hmn
      exact absurd hlt (by decide)
    · rintro ⟨mx, hmx, hlt⟩
      cases hmx
      exact absurd hlt (by decide)
  exact ⟨by decide, he, h.2.2 he⟩

/-- C8: with inverted bounds (`min_date > max_date`) every day cell of every
displayed month is disabled — no day is selectable, and the widget reports no
error (the cell function is total). -/
theorem inverted_bounds_disable_all (mn mx sel date : CDate)
    (hinv : dateLt mx mn) :
    (show_day_button (some mn) (some mx) sel date).enabled = false := by
  by_cases hm : sel.m = date.m
  · unfold show_day_button
    rw [if_neg (by simp [hm])]
    simp only [dateLt] at hinv
    by_cases h1 : toRataDie date < toRataDie mn
    · simp [dateLt, h1]
    · have h2 : toRataDie mx < toRataDie date := by omega
      simp [dateLt, h2]
  · simp [show_day_button, hm]

/-- Witness for C8: with `min_date = 2023-05-10 > max_date = 2023-05-01`, the
cell for 2023-05-05 (inside the displayed month) is disabled. -/
theorem inverted_bounds_disable_all_witness :
    dateLt ⟨2023, 5, 1⟩ ⟨2023, 5, 10⟩ ∧
      (show_day_button (some ⟨2023, 5, 10⟩) (some ⟨2023, 5, 1⟩)
        ⟨2023, 5, 15⟩ ⟨2023, 5, 5⟩).enabled = false :=
  ⟨by decide, inverted_bounds_disable_all ⟨2023, 5, 10⟩ ⟨2023, 5, 1⟩
    ⟨2023, 5, 15⟩ ⟨2023, 5, 5⟩ (by decide)⟩

/-- The function `date_step_button` (src/lib.rs:235-247): on a click, the new date is the
current date plus the duration (in days); if the minimum bound's (year, month)
is above the new date's, or the maximum bound's is below it — compared by year,
then by month within an equal year — the click is a no-op, otherwise the new
date is selected. -/
def date_step_button (min_date max_date : Option CDate) (cur : CDate)
    (duration_days : Int) : CDate :=
  let new_date := civilFromDays (toRataDie cur + duration_days)
  if (match min_date with
      | some mn => decide (mn.y > new_date.y ∨ (mn.y = new_date.y ∧ mn.m > new_date.m))
      | none => false) ||
     (match max_date with
      | some mx => decide (mx.y < new_date.y ∨ (mx.y = new_date.y ∧ mx.m < new_date.m))
      | none => false)
  then cur
  else new_date

/-- Modelled from the spec: strict lexicographic order on (year, month) pairs —
"compared by year, then by month within the bound's year". -/
def pairLt (a b : Int × Int) : Prop := a.1 < b.1 ∨ (a.1 = b.1 ∧ a.2 < b.2)

/-- Modelled from the spec: the resulting date's (year, month) pair falls
strictly outside the bound implied by `min_date` / `max_date`. -/
def stepBlocked (min_date max_date : Option CDate) (nd : CDate) : Prop :=
  (∃ mn, min_date = some mn ∧ pairLt (nd.y, nd.m) (mn.y, mn.m)) ∨
  (∃ mx, max_date = some mx ∧ pairLt (mx.y, mx.m) (nd.y, nd.m))

/-- C4: a stepper click sets the selected date to the current date plus the
duration, unless the resulting date's (year, month) pair falls strictly outside
the bound implied by `min_date`/`max_date` — compared by year, then by month —
in which case the click is a no-op; in particular with no bounds, stepping
+30 days from 2023-12-20 yields 2024-01-19. -/
theorem date_step_spec :
    (∀ (min_date max_date : Option CDate) (cur : CDate) (dur : Int),
      (stepBlocked min_date max_date (civilFromDays (toRataDie cur + dur)) →
        date_step_button min_date max_date cur dur = cur) ∧
      (¬ stepBlocked min_date max_date (civilFromDays (toRataDie cur + dur)) →
        date_step_button min_date max_date cur dur =
          civilFromDays (toRataDie cur + dur))) ∧
    date_step_button none none ⟨2023, 12, 20⟩ 30 = ⟨2024, 1, 19⟩ := by
  refine ⟨?_, by decide⟩
  intro min_date max_date cur dur
  constructor
  · intro hb
    unfold date_step_button
    rw [if_pos]
    rcases hb with ⟨mn, hmn, hlt⟩ | ⟨mx, hmx, hlt⟩ <;>
      subst_vars <;> simp [pairLt] at hlt ⊢ <;> omega
  · intro hb
    unfold date_step_button
    rw [if_neg]
    intro hcond
    apply hb
    rcases min_date with - | mn <;> rcases max_date with - | mx <;>
      simp [stepBlocked, pairLt] at hcond ⊢ <;> omega

/-- Witness for C4: `date_step_spec` at concrete inputs.  With a minimum bound of
2024-01-01, stepping −30 days from 2023-12-31 (to 2023-12-01) is blocked and is a
no-op; with no bounds the same step lands on 2023-12-01. -/
theorem date_step_spec_witness :
    stepBlocked (some ⟨2024, 1, 1⟩) none
        (civilFromDays (toRataDie ⟨2023, 12, 31⟩ + (-30))) ∧
      date_step_button (some ⟨2024, 1, 1⟩) none ⟨2023, 12, 31⟩ (-30) = ⟨2023, 12, 31⟩ ∧
      ¬ stepBlocked none none (civilFromDays (toRataDie ⟨2023, 12, 31⟩ + (-30))) ∧
      date_step_button none none ⟨2023, 12, 31⟩ (-30) = ⟨2023, 12, 1⟩ := by
  have hb : stepBlocked (some ⟨2024, 1, 1⟩) none
      (civilFromDays (toRataDie ⟨2023, 12, 31⟩ + (-30))) :=
    Or.inl ⟨⟨2024, 1, 1⟩, rfl, by left; decide⟩
  have hnb : ¬ stepBlocked none none
      (civilFromDays (toRataDie ⟨2023, 12, 31⟩ + (-30))) := by
    rintro (⟨mn, hmn, -⟩ | ⟨mx, hmx, -⟩)
    · cases hmn
    · cases hmx
  refine ⟨hb, ?_, hnb, ?_⟩
  · exact (date_step_spec.1 (some ⟨2024, 1, 1⟩) none ⟨2023, 12, 31⟩ (-30)).1 hb
  · rw [(date_step_spec.1 none none ⟨2023, 12, 31⟩ (-30)).2 hnb]
    decide

/-- The local `min_month` of `show_month_control` (src/lib.rs:285-289): the
minimum bound's 1-based `month()` when its year equals the selected year,
otherwise 0. -/
def show_month_control_min_month (min_date : Option CDate) (sel : CDate) : Int :=
  match min_date with
  | some mn => if mn.y = sel.y then mn.m else 0
  | none => 0

/-- The local `max_month` of `show_month_control` (src/lib.rs:290-294): the
maximum bound's 1-based `month()` when its year equals the selected year,
otherwise 12. -/
def show_month_control_max_month (max_date : Option CDate) (sel : CDate) : Int :=
  match max_date with
  | some mx => if mx.y = sel.y then mx.m else 12
  | none => 12

/-- The `month0` values offered by the month dropdown of `show_month_control`
(src/lib.rs:296-309): `i` in `min_month..max_month`; entry `i` is labelled with
the name of 1-based month `i + 1`. -/
def month_dropdown_month0s (min_date max_date : Option CDate) (sel : CDate) :
    List Int :=
  let min_month := show_month_control_min_month min_date sel
  let max_month := show_month_control_max_month max_date sel
  (List.range (max_month - min_month).toNat).map
    (fun i : Nat => min_month + (i : Int))

/-- Membership in the dropdown list is exactly the half-open interval
`[min_month, max_month)`. -/
lemma month_dropdown_mem (min_date max_date : Option CDate) (sel : CDate)
    (x : Int) :
    x ∈ month_dropdown_month0s min_date max_date sel ↔
      show_month_control_min_month min_date sel ≤ x ∧
        x < show_month_control_max_month max_date sel := by
  unfold month_dropdown_month0s
  simp only [List.mem_map, List.mem_range]
  constructor
  · rintro ⟨i, hi, rfl⟩
    omega
  · rintro ⟨h1, h2⟩
    exact ⟨(x - show_month_control_min_month min_date sel).toNat, by omega, by omega⟩

/-- C7 counterexample: the upper bound's month IS selectable via the dropdown.
With `max_date = 2023-03-15` and selection 2023-01-10, the entry `month0 = 2` —
which is 1-based month 3, `max_date`'s own month — is listed. -/
theorem month_dropdown_upper_bound_selectable :
    (show_month_control_max_month (some ⟨2023, 3, 15⟩) ⟨2023, 1, 10⟩ - 1)
        ∈ month_dropdown_month0s none (some ⟨2023, 3, 15⟩) ⟨2023, 1, 10⟩ ∧
      show_month_control_max_month (some ⟨2023, 3, 15⟩) ⟨2023, 1, 10⟩
        = (CDate.mk 2023 3 15).m := by
  constructor
  · decide
  · decide

/-- C7 (amended): the dropdown lists exactly the `month0` values in
`[min_month, max_month)` with `min_month`/`max_month` as the claim defines them;
since those bounds are 1-based month numbers and the entries are 0-based
indices, the upper bound's own month (`month0 = max_month − 1`) IS selectable
whenever the interval is nonempty, and the lower bound's own month
(`month0 = min_month − 1`) is never listed. -/
theorem month_dropdown_range_spec :
    (∀ (min_date max_date : Option CDate) (sel : CDate) (x : Int),
      x ∈ month_dropdown_month0s min_date max_date sel ↔
        show_month_control_min_month min_date sel ≤ x ∧
          x < show_month_control_max_month max_date sel) ∧
    (∀ (min_date max_date : Option CDate) (sel : CDate),
      show_month_control_min_month min_date sel
          ≤ show_month_control_max_month max_date sel - 1 →
        (show_month_control_max_month max_date sel - 1)
          ∈ month_dropdown_month0s min_date max_date sel) ∧
    (∀ (min_date max_date : Option CDate) (sel : CDate),
      (show_month_control_min_month min_date sel - 1)
        ∉ month_dropdown_month0s min_date max_date sel) := by
  refine ⟨month_dropdown_mem, ?_, ?_⟩
  · intro min_date max_date sel h
    rw [month_dropdown_mem]
    omega
  · intro min_date max_date sel h
    rw [month_dropdown_mem] at h
    omega

/-- Witness for C7 (amended): with `max_date = 2023-03-15` and selection
2023-01-10, `month0 = 2` (March, the bound's month) is in the dropdown and
`month0 = 3` (April) is not. -/
theorem month_dropdown_range_spec_witness :
    ((2 : Int) ∈ month_dropdown_month0s none (some ⟨2023, 3, 15⟩) ⟨2023, 1, 10⟩) ∧
      ¬ ((3 : Int) ∈ month_dropdown_month0s none (some ⟨2023, 3, 15⟩) ⟨2023, 1, 10⟩) := by
  constructor
  · exact (month_dropdown_range_spec.1 none (some ⟨2023, 3, 15⟩)
      ⟨2023, 1, 10⟩ 2).mpr (by decide)
  · intro hmem
    have h := (month_dropdown_range_spec.1 none (some ⟨2023, 3, 15⟩)
      ⟨2023, 1, 10⟩ 3).mp hmem
    exact absurd h (by decide)

/-- C10: when the minimum bound's year equals the selected year, the dropdown's
lower bound is `min_date`'s 1-based month used as a 0-based index: `min_date`'s
own month (`month0 = mn.m − 1`) is excluded, every listed entry is at least
`month0 = mn.m` (the month after `min_date`'s), and the first such entry is
listed whenever the interval is nonempty — even though a day equal to
`min_date` is enabled in the day grid. -/
theorem month_dropdown_min_bound_spec (mn sel : CDate) (max_date : Option CDate)
    (hy : mn.y = sel.y) :
    show_month_control_min_month (some mn) sel = mn.m ∧
      (mn.m - 1) ∉ month_dropdown_month0s (some mn) max_date sel ∧
      (∀ x ∈ month_dropdown_month0s (some mn) max_date sel, mn.m ≤ x) ∧
      (mn.m < show_month_control_max_month max_date sel →
        mn.m ∈ month_dropdown_month0s (some mn) max_date sel) ∧
      (∀ sel2 : CDate, sel2.m = mn.m → sel2 ≠ mn →
        (show_day_button (some mn) none sel2 mn).enabled = true) := by
  have hmin : show_month_control_min_month (some mn) sel = mn.m := by
    simp [show_month_control_min_month, hy]
  refine ⟨hmin, ?_, ?_, ?_, ?_⟩
  · rw [month_dropdown_mem, hmin]
    omega
  · intro x hx
    rw [month_dropdown_mem, hmin] at hx
    omega
  · intro h
    rw [month_dropdown_mem, hmin]
    omega
  · intro sel2 hm hne
    unfold show_day_button
    rw [if_neg (by simp [hm])]
    simp [dateLt, hne]

/-- Witness for C10: `min_date = 2023-03-05` with selection 2023-07-10 (same
year).  `month0 = 2` (March) is not listed, `month0 = 3` (April) is the first
listed entry, and the day cell for 2023-03-05 itself is enabled. -/
theorem month_dropdown_min_bound_spec_witness :
    ((CDate.mk 2023 3 5).y = (CDate.mk 2023 7 10).y) ∧
      (2 : Int) ∉ month_dropdown_month0s (some ⟨2023, 3, 5⟩) none ⟨2023, 7, 10⟩ ∧
      (3 : Int) ∈ month_dropdown_month0s (some ⟨2023, 3, 5⟩) none ⟨2023, 7, 10⟩ ∧
      (show_day_button (some ⟨2023, 3, 5⟩) none ⟨2023, 3, 20⟩ ⟨2023, 3, 5⟩).enabled
        = true := by
  have h := month_dropdown_min_bound_spec ⟨2023, 3, 5⟩ ⟨2023, 7, 10⟩ none rfl
  refine ⟨rfl, ?_, ?_, ?_⟩
  · simpa using h.2.1
  · simpa using h.2.2.2.1 (by decide)
  · exact h.2.2.2.2 ⟨2023, 3, 20⟩ rfl (by decide)

/-- Model of `Date::with_year` of the calendar library: replace the year keeping month
and day; `none` when the resulting date is invalid (e.g. Feb 29 moved to a
non-leap year). -/
def CDate.with_year (dt : CDate) (year : Int) : Option CDate :=
  if (CDate.mk year dt.m dt.d).isValid then some ⟨year, dt.m, dt.d⟩ else none

/-- Model of `Date::with_month0` of the calendar library: replace the month (0-based)
keeping year and day; `none` when the resulting date is invalid (e.g. Jan 31
moved to February). -/
def CDate.with_month0 (dt : CDate) (month0 : Int) : Option CDate :=
  if (CDate.mk dt.y (month0 + 1) dt.d).isValid then some ⟨dt.y, month0 + 1, dt.d⟩
  else none

/-- The year-input update of `show_year_control` (src/lib.rs:263-268): when the
dragged year differs from the current year, the selected date becomes
`self.date.with_year(drag_year).unwrap()`.  `none` models the `unwrap` panic. -/
def show_year_control_update (cur : CDate) (drag_year : Int) : Option CDate :=
  if drag_year ≠ cur.y then cur.with_year drag_year else some cur

/-- The dropdown update of `show_month_control` (src/lib.rs:313-315): when the
selected `month0` differs from the current one, the selected date becomes
`self.date.with_month0(selected).unwrap()`.  `none` models the `unwrap` panic. -/
def show_month_control_update (cur : CDate) (selected : Int) : Option CDate :=
  if selected ≠ cur.m - 1 then cur.with_month0 selected else some cur

/-- C5 fails on the code: the widget's date constructions are NOT infallible.
From the valid selected date 2024-02-29, entering year 2023 in the year input
makes `with_year(2023).unwrap()` panic; from the valid selected date 2023-01-31,
choosing February (`month0 = 1`, offered by the unbounded dropdown) makes
`with_month0(1).unwrap()` panic. -/
theorem widget_date_construction_can_fail :
    (CDate.mk 2024 2 29).isValid ∧
      show_year_control_update ⟨2024, 2, 29⟩ 2023 = none ∧
      (CDate.mk 2023 1 31).isValid ∧
      (1 : Int) ∈ month_dropdown_month0s none none ⟨2023, 1, 31⟩ ∧
      show_month_control_update ⟨2023, 1, 31⟩ 1 = none := by
  refine ⟨by decide, by decide, by decide, by decide, by decide⟩

/-- The per-frame interaction inputs of `Widget::ui`. -/
structure UiInput where
  button_clicked : Bool
  esc_pressed : Bool
  clicked_elsewhere : Bool
  month_menu_used : Bool
  day_clicked : Option CDate
deriving Repr

/-- The per-frame outcome of `Widget::ui`. -/
structure UiResult where
  popup_open : Bool
  selected : CDate
  used_month_dropdown : Bool
deriving Repr

/-- The popup logic of `Widget::ui` (src/lib.rs:326-360).  A click on the
display button toggles the popup memory; when the popup is then open it is
rendered (a click on an enabled day sets the selected date, and rendering the
month dropdown sets `used_month_dropdown`), and it is toggled closed again when
the display button was not clicked and either Escape is pressed or — unless
`used_month_dropdown` is set — a click landed outside the popup area; at the
end of the open-render pass `used_month_dropdown` is reset to `false`. -/
def ui_frame (popup_open : Bool) (sel : CDate) (inp : UiInput) : UiResult :=
  let open1 := if inp.button_clicked then !popup_open else popup_open
  if open1 then
    let sel1 := match inp.day_clicked with
      | some d => d
      | none => sel
    let used := inp.month_menu_used
    let open2 := if !inp.button_clicked
        && (inp.esc_pressed || (!used && inp.clicked_elsewhere))
      then !open1 else open1
    { popup_open := open2, selected := sel1, used_month_dropdown := false }
  else
    { popup_open := open1, selected := sel, used_month_dropdown := false }

/-- C6: popup state machine of `Widget::ui`.  Clicking the display button while
closed opens the popup; while open, clicking the button again or pressing
Escape closes it; an outside click closes it exactly when the month-dropdown
suppression flag is not set that frame; the suppression flag is false at the
end of every frame; and clicking an enabled day sets the selected date without
closing the popup by itself. -/
theorem popup_state_machine (sel : CDate) (inp : UiInput) :
    (inp.button_clicked = true → (ui_frame false sel inp).popup_open = true) ∧
    (inp.button_clicked = true → (ui_frame true sel inp).popup_open = false) ∧
    (inp.button_clicked = false → inp.esc_pressed = true →
      (ui_frame true sel inp).popup_open = false) ∧
    (inp.button_clicked = false → inp.esc_pressed = false →
      inp.clicked_elsewhere = true →
      ((ui_frame true sel inp).popup_open = false ↔ inp.month_menu_used = false)) ∧
    (∀ b : Bool, (ui_frame b sel inp).used_month_dropdown = false) ∧
    (∀ d : CDate, inp.button_clicked = false → inp.esc_pressed = false →
      inp.clicked_elsewhere = false → inp.day_clicked = some d →
      (ui_frame true sel inp).popup_open = true ∧
        (ui_frame true sel inp).selected = d) := by
  obtain ⟨bc, esc, elsew, menu, dayc⟩ := inp
  refine ⟨?_, ?_, ?_, ?_, ?_, ?_⟩
  · rintro rfl
    simp [ui_frame]
  · rintro rfl
    simp [ui_frame]
  · rintro rfl rfl
    simp [ui_frame]
  · rintro rfl rfl rfl
    cases menu <;> simp [ui_frame]
  · intro b
    by_cases h : (if bc then !b else b) = true <;> simp [ui_frame, h]
  · rintro d rfl rfl rfl rfl
    simp [ui_frame]

/-- Witness for C6: `popup_state_machine` at a concrete frame input — an
Escape press while the popup is open closes it. -/
theorem popup_state_machine_witness :
    (ui_frame true ⟨2023, 3, 15⟩
      ⟨false, true, false, false, none⟩).popup_open = false :=
  (popup_state_machine ⟨2023, 3, 15⟩ ⟨false, true, false, false, none⟩).2.2.1
    rfl rfl

/-- An RGB colour, the model of `eframe::epaint::Color32`. -/
structure Color32 where
  r : Nat
  g : Nat
  b : Nat
deriving DecidableEq, Repr

/-- The default `weekend_func` (src/lib.rs:84): Saturday or Sunday. -/
def default_weekend_func (date : CDate) : Bool :=
  num_days_from_monday (toRataDie date) == 5
    || num_days_from_monday (toRataDie date) == 6

/-- The `DatePicker` widget state (src/lib.rs:50-66); the `id` is modelled by a
number and the `&mut Date<Tz>` reference by the date value itself. -/
structure DatePicker where
  id : Nat
  date : CDate
  max_date : Option CDate
  min_date : Option CDate
  sunday_first : Bool
  movable : Bool
  format_string : String
  weekend_color : Color32
  weekend_func : CDate → Bool
  highlight_weekend : Bool
  used_month_dropdown : Bool

/-- Constructor `DatePicker::new` (src/lib.rs:74-88) with its documented defaults. -/
def DatePicker.new (id : Nat) (date : CDate) : DatePicker :=
  { id := id
    date := date
    max_date := none
    min_date := none
    sunday_first := false
    movable := false
    format_string := "%Y-%m-%d"
    weekend_color := ⟨196, 0, 0⟩
    weekend_func := default_weekend_func
    highlight_weekend := true
    used_month_dropdown := false }

/-- Builder method `min_date` (src/lib.rs:92-95). -/
def DatePicker.set_min_date (s : DatePicker) (d : CDate) : DatePicker :=
  { s with min_date := some d }

/-- Builder method `max_date` (src/lib.rs:99-102). -/
def DatePicker.set_max_date (s : DatePicker) (d : CDate) : DatePicker :=
  { s with max_date := some d }

/-- Builder method `sunday_first` (src/lib.rs:107-110). -/
def DatePicker.set_sunday_first (s : DatePicker) (flag : Bool) : DatePicker :=
  { s with sunday_first := flag }

/-- Builder method `movable` (src/lib.rs:115-118). -/
def DatePicker.set_movable (s : DatePicker) (flag : Bool) : DatePicker :=
  { s with movable := flag }

/-- Builder method `date_format` (src/lib.rs:123-126). -/
def DatePicker.set_date_format (s : DatePicker) (new_format : String) : DatePicker :=
  { s with format_string := new_format }

/-- Builder method `highlight_weekend` (src/lib.rs:131-134). -/
def DatePicker.set_highlight_weekend (s : DatePicker) (highlight : Bool) : DatePicker :=
  { s with highlight_weekend := highlight }

/-- Builder method `highlight_weekend_color` (src/lib.rs:138-141). -/
def DatePicker.set_highlight_weekend_color (s : DatePicker) (color : Color32) :
    DatePicker :=
  { s with weekend_color := color }

/-- Builder method `weekend_days` (src/lib.rs:144-147). -/
def DatePicker.set_weekend_days (s : DatePicker) (is_weekend : CDate → Bool) :
    DatePicker :=
  { s with weekend_func := is_weekend }

/-- C9: on a freshly constructed `DatePicker`, every pair of distinct builder
setters commutes (they write distinct fields), and applying the same setter
twice keeps only the last written value. -/
theorem builder_setters_commute :
    (∀ (i : Nat) (d : CDate) (a b : CDate),
      ((DatePicker.new i d).set_min_date a).set_max_date b
        = ((DatePicker.new i d).set_max_date b).set_min_date a) ∧
    (∀ (i : Nat) (d : CDate) (a : CDate) (b : Bool),
      ((DatePicker.new i d).set_min_date a).set_sunday_first b
        = ((DatePicker.new i d).set_sunday_first b).set_min_date a) ∧
    (∀ (i : Nat) (d : CDate) (a : CDate) (b : Bool),
      ((DatePicker.new i d).set_min_date a).set_movable b
        = ((DatePicker.new i d).set_movable b).set_min_date a) ∧
    (∀ (i : Nat) (d : CDate) (a : CDate) (b : String),
      ((DatePicker.new i d).set_min_date a).set_date_format b
        = ((DatePicker.new i d).set_date_format b).set_min_date a) ∧
    (∀ (i : Nat) (d : CDate) (a : CDate) (b : Bool),
      ((DatePicker.new i d).set_min_date a).set_highlight_weekend b
        = ((DatePicker.new i d).set_highlight_weekend b).set_min_date a) ∧
    (∀ (i : Nat) (d : CDate) (a : CDate) (b : Color32),
      ((DatePicker.new i d).set_min_date a).set_highlight_weekend_color b
        = ((DatePicker.new i d).set_highlight_weekend_color b).set_min_date a) ∧
    (∀ (i : Nat) (d : CDate) (a : CDate) (b : CDate → Bool),
      ((DatePicker.new i d).set_min_date a).set_weekend_days b
        = ((DatePicker.new i d).set_weekend_days b).set_min_date a) ∧
    (∀ (i : Nat) (d : CDate) (a : CDate) (b : Bool),
      ((DatePicker.new i d).set_max_date a).set_sunday_first b
        = ((DatePicker.new i d).set_sunday_first b).set_max_date a) ∧
    (∀ (i : Nat) (d : CDate) (a : CDate) (b : Bool),
      ((DatePicker.new i d).set_max_date a).set_movable b
        = ((DatePicker.new i d).set_movable b).set_max_date a) ∧
    (∀ (i : Nat) (d : CDate) (a : CDate) (b : String),
      ((DatePicker.new i d).set_max_date a).set_date_format b
        = ((DatePicker.new i d).set_date_format b).set_max_date a) ∧
    (∀ (i : Nat) (d : CDate) (a : CDate) (b : Bool),
      ((DatePicker.new i d).set_max_date a).set_highlight_weekend b
        = ((DatePicker.new i d).set_highlight_weekend b).set_max_date a) ∧
    (∀ (i : Nat) (d : CDate) (a : CDate) (b : Color32),
      ((DatePicker.new i d).set_max_date a).set_highlight_weekend_color b
        = ((DatePicker.new i d).set_highlight_weekend_color b).set_max_date a) ∧
    (∀ (i : Nat) (d : CDate) (a : CDate) (b : CDate → Bool),
      ((DatePicker.new i d).set_max_date a).set_weekend_days b
        = ((DatePicker.new i d).set_weekend_days b).set_max_date a) ∧
    (∀ (i : Nat) (d : CDate) (a b : Bool),
      ((DatePicker.new i d).set_sunday_first a).set_movable b
        = ((DatePicker.new i d).set_movable b).set_sunday_first a) ∧
    (∀ (i : Nat) (d : CDate) (a : Bool) (b : String),
      ((DatePicker.new i d).set_sunday_first a).set_date_format b
        = ((DatePicker.new i d).set_date_format b).set_sunday_first a) ∧
    (∀ (i : Nat) (d : CDate) (a b : Bool),
      ((DatePicker.new i d).set_sunday_first a).set_highlight_weekend b
        = ((DatePicker.new i d).set_highlight_weekend b).set_sunday_first a) ∧
    (∀ (i : Nat) (d : CDate) (a : Bool) (b : Color32),
      ((DatePicker.new i d).set_sunday_first a).set_highlight_weekend_color b
        = ((DatePicker.new i d).set_highlight_weekend_color b).set_sunday_first a) ∧
    (∀ (i : Nat) (d : CDate) (a : Bool) (b : CDate → Bool),
      ((DatePicker.new i d).set_sunday_first a).set_weekend_days b
        = ((DatePicker.new i d).set_weekend_days b).set_sunday_first a) ∧
    (∀ (i : Nat) (d : CDate) (a : Bool) (b : String),
      ((DatePicker.new i d).set_movable a).set_date_format b
        = ((DatePicker.new i d).set_date_format b).set_movable a) ∧
    (∀ (i : Nat) (d : CDate) (a b : Bool),
      ((DatePicker.new i d).set_movable a).set_highlight_weekend b
        = ((DatePicker.new i d).set_highlight_weekend b).set_movable a) ∧
    (∀ (i : Nat) (d : CDate) (a : Bool) (b : Color32),
      ((DatePicker.new i d).set_movable a).set_highlight_weekend_color b
        = ((DatePicker.new i d).set_highlight_weekend_color b).set_movable a) ∧
    (∀ (i : Nat) (d : CDate) (a : Bool) (b : CDate → Bool),
      ((DatePicker.new i d).set_movable a).set_weekend_days b
        = ((DatePicker.new i d).set_weekend_days b).set_movable a) ∧
    (∀ (i : Nat) (d : CDate) (a : String) (b : Bool),
      ((DatePicker.new i d).set_date_format a).set_highlight_weekend b
        = ((DatePicker.new i d).set_highlight_weekend b).set_date_format a) ∧
    (∀ (i : Nat) (d : CDate) (a : String) (b : Color32),
      ((DatePicker.new i d).set_date_format a).set_highlight_weekend_color b
        = ((DatePicker.new i d).set_highlight_weekend_color b).set_date_format a) ∧
    (∀ (i : Nat) (d : CDate) (a : String) (b : CDate → Bool),
      ((DatePicker.new i d).set_date_format a).set_weekend_days b
        = ((DatePicker.new i d).set_weekend_days b).set_date_format a) ∧
    (∀ (i : Nat) (d : CDate) (a : Bool) (b : Color32),
      ((DatePicker.new i d).set_highlight_weekend a).set_highlight_weekend_color b
        = ((DatePicker.new i d).set_highlight_weekend_color b).set_highlight_weekend a) ∧
    (∀ (i : Nat) (d : CDate) (a : Bool) (b : CDate → Bool),
      ((DatePicker.new i d).set_highlight_weekend a).set_weekend_days b
        = ((DatePicker.new i d).set_weekend_days b).set_highlight_weekend a) ∧
    (∀ (i : Nat) (d : CDate) (a : Color32) (b : CDate → Bool),
      ((DatePicker.new i d).set_highlight_weekend_color a).set_weekend_days b
        = ((DatePicker.new i d).set_weekend_days b).set_highlight_weekend_color a) ∧
    (∀ (i : Nat) (d : CDate) (a b : CDate),
      ((DatePicker.new i d).set_min_date a).set_min_date b
        = (DatePicker.new i d).set_min_date b) ∧
    (∀ (i : Nat) (d : CDate) (a b : CDate),
      ((DatePicker.new i d).set_max_date a).set_max_date b
        = (DatePicker.new i d).set_max_date b) ∧
    (∀ (i : Nat) (d : CDate) (a b : Bool),
      ((DatePicker.new i d).set_sunday_first a).set_sunday_first b
        = (DatePicker.new i d).set_sunday_first b) ∧
    (∀ (i : Nat) (d : CDate) (a b : Bool),
      ((DatePicker.new i d).set_movable a).set_movable b
        = (DatePicker.new i d).set_movable b) ∧
    (∀ (i : Nat) (d : CDate) (a b : String),
      ((DatePicker.new i d).set_date_format a).set_date_format b
        = (DatePicker.new i d).set_date_format b) ∧
    (∀ (i : Nat) (d : CDate) (a b : Bool),
      ((DatePicker.new i d).set_highlight_weekend a).set_highlight_weekend b
        = (DatePicker.new i d).set_highlight_weekend b) ∧
    (∀ (i : Nat) (d : CDate) (a b : Color32),
      ((DatePicker.new i d).set_highlight_weekend_color a).set_highlight_weekend_color b
        = (DatePicker.new i d).set_highlight_weekend_color b) ∧
    (∀ (i : Nat) (d : CDate) (a b : CDate → Bool),
      ((DatePicker.new i d).set_weekend_days a).set_weekend_days b
        = (DatePicker.new i d).set_weekend_days b) := by
  repeat' apply And.intro
  all_goals exact fun _ _ _ _ => rfl

end EguiDatepicker
